import Mathlib

/-!
# Verification of the nuxt-scroll-restoration plugin

A shallow embedding of the client plugin of `nuxt-scroll-restoration`
(the plugin body that hooks `history.replaceState` / `history.pushState`,
the `popstate` / `page:finish` handlers, and the `tryToScrollTo` polling
loop), together with proofs of the specified properties.

JavaScript values stored in history state are modelled by `JSValue`;
state objects by association lists (`JSObject`) observed through
`getField`.  Machine-level geometry reads (`document.body` /
`document.documentElement` extents, `window.innerWidth/Height`,
`Date.now()`) are passed in explicitly, one per polling step.
-/

/-- A JavaScript value as far as the plugin observes it:
`undefined`, `null`, a finite number, a non-finite number (`NaN`,
`±Infinity`), a string or a boolean.  Scroll coordinates are finite
numbers, modelled as integers. -/
inductive JSValue where
  | undef : JSValue
  | null : JSValue
  | num : Int → JSValue
  | nonFiniteNum : JSValue
  | str : String → JSValue
  | bool : Bool → JSValue
deriving DecidableEq, Repr

/-- `Number.isFinite(v)`: true exactly for finite numbers. -/
def JSValue.isFiniteNumber : JSValue → Bool
  | .num _ => true
  | _ => false

/-- A plain JavaScript object: an association list of (key, value).
Property reads go through `getField`, which returns the first binding
(later bindings shadow nothing; writes prepend after erasing the key). -/
def JSObject : Type := List (String × JSValue)

instance : DecidableEq JSObject := inferInstanceAs (DecidableEq (List (String × JSValue)))

instance : Repr JSObject := inferInstanceAs (Repr (List (String × JSValue)))

/-- Property access `o[k]`: the bound value, or `undefined` when the key
is absent. -/
def getField : JSObject → String → JSValue
  | [], _ => .undef
  | (k, v) :: rest, key => if key = k then v else getField rest key

/-- Property write as performed by `Object.assign`: the key is bound to
the new value, every other key keeps its value. -/
def setField (o : JSObject) (k : String) (v : JSValue) : JSObject :=
  (k, v) :: o.filter fun p => p.1 ≠ k

/-- Property access on a possibly-`null` object reference, for stating
field preservation: reading any field of `null`/`undefined` never
succeeds, so we observe `undefined` for specification purposes. -/
def getFieldOpt (o : Option JSObject) (k : String) : JSValue :=
  match o with
  | none => .undef
  | some obj => getField obj k

/-- `Object.assign({}, base, { __scrollX: vx, __scrollY: vy })`:
a fresh object carrying every field of `base` (nothing when `base` is
`null`, which `Object.assign` ignores), with the two scroll fields
overwritten. -/
def stampObj (base : Option JSObject) (vx vy : JSValue) : JSObject :=
  setField (setField (base.getD []) "__scrollX" vx) "__scrollY" vy

/-! ## Module configuration (`module.ts` defaults, plugin lines 175-178)

The plugin reads `useRuntimeConfig().public.scrollRestoration || {}` and
resolves each numeric option with JavaScript's falsy-or:
`config.scrollRestorationTimeoutMs || 3000` and
`config.tryToScrollIntervalMs || 50`.  An absent field is `undefined`
(modelled `none`); an explicit `0` is falsy. -/

structure RuntimeScrollConfig where
  scrollRestorationTimeoutMs : Option Int
  tryToScrollIntervalMs : Option Int
  debug : Option Bool
deriving DecidableEq, Repr

/-- JavaScript `v || d` for an optional number: `undefined` and `0` are
falsy and fall back to the default. -/
def jsNumOr (v : Option Int) (d : Int) : Int :=
  match v with
  | none => d
  | some n => if n = 0 then d else n

/-- `SCROLL_RESTORATION_TIMEOUT_MS = config.scrollRestorationTimeoutMs || 3000`,
where `config` is the `scrollRestoration` runtime config object or `{}`
when absent. -/
def SCROLL_RESTORATION_TIMEOUT_MS (cfg : Option RuntimeScrollConfig) : Int :=
  jsNumOr (cfg.bind fun c => c.scrollRestorationTimeoutMs) 3000

/-- `TRY_TO_SCROLL_INTERVAL_MS = config.tryToScrollIntervalMs || 50`. -/
def TRY_TO_SCROLL_INTERVAL_MS (cfg : Option RuntimeScrollConfig) : Int :=
  jsNumOr (cfg.bind fun c => c.tryToScrollIntervalMs) 50

/-! ## Navigation Interceptor (plugin lines 206-238)

The wrapped `window.history.replaceState` computes the state it
delegates to the original `replaceState`:

* mounted: `Object.assign({}, state, {__scrollX: window.scrollX,
  __scrollY: window.scrollY})`;
* not mounted: `Object.assign({}, state, {__scrollX:
  window.history.state.__scrollX, __scrollY:
  window.history.state.__scrollY})` — note that when
  `window.history.state` is `null` this property read throws a
  `TypeError` before anything is delegated.

`Except String JSObject` carries the delegated state or the thrown
error. -/

def stampedState (isMounted : Bool) (liveX liveY : Int)
    (histState stateArg : Option JSObject) : Except String JSObject :=
  if isMounted then
    .ok (stampObj stateArg (.num liveX) (.num liveY))
  else
    match histState with
    | none => .error "TypeError: cannot read __scrollX of null"
    | some hs =>
      .ok (stampObj stateArg (getField hs "__scrollX") (getField hs "__scrollY"))

/-- The wrapped `replaceState`, with the underlying native
`replaceState` abstracted as `origReplace` (which may itself throw):
compute the stamped state, then delegate. -/
def runWrappedReplaceState (origReplace : JSObject → Except String Unit)
    (isMounted : Bool) (liveX liveY : Int)
    (histState stateArg : Option JSObject) : Except String Unit :=
  match stampedState isMounted liveX liveY histState stateArg with
  | .error e => .error e
  | .ok s => origReplace s

/-- The wrapped `pushState`
(`window.history.replaceState(window.history.state, ""); originalPushState.apply(window.history, args)`):
first run the wrapped `replaceState` on the current entry's state, then
delegate to the native `pushState` with the original arguments. -/
def runWrappedPushState (origReplace : JSObject → Except String Unit)
    (origPush : Option JSObject → Except String Unit)
    (isMounted : Bool) (liveX liveY : Int)
    (histState stateArg : Option JSObject) : Except String Unit :=
  match runWrappedReplaceState origReplace isMounted liveX liveY histState histState with
  | .error e => .error e
  | .ok _ => origPush stateArg

/-- A call to one of the underlying native history primitives, as
observed from outside the wrappers. -/
inductive HistOp where
  | origReplaceCall : JSObject → HistOp
  | origPushCall : Option JSObject → HistOp
deriving DecidableEq, Repr

/-- The sequence of native-primitive calls issued by one invocation of
the wrapped `replaceState` (when no exception is thrown). -/
def replaceStateTrace (isMounted : Bool) (liveX liveY : Int)
    (histState stateArg : Option JSObject) : Except String (List HistOp) :=
  match stampedState isMounted liveX liveY histState stateArg with
  | .error e => .error e
  | .ok s => .ok [.origReplaceCall s]

/-- The sequence of native-primitive calls issued by one invocation of
the wrapped `pushState`: the wrapped `replaceState` on the current
entry's state first, then the native `pushState` with the original
argument. -/
def pushStateTrace (isMounted : Bool) (liveX liveY : Int)
    (histState stateArg : Option JSObject) : Except String (List HistOp) :=
  match replaceStateTrace isMounted liveX liveY histState histState with
  | .error e => .error e
  | .ok ops => .ok (ops ++ [.origPushCall stateArg])

/-- Whether a wrapper invocation threw. -/
def isThrown (r : Except String Unit) : Bool :=
  match r with
  | .error _ => true
  | .ok _ => false

/-! ## Lifecycle Coordinator (plugin lines 240-266, 300-309)

`onPageFinish` resolves `const state = poppedState || window.history.state`,
clears `poppedState`, and either schedules a deferred `tryToScrollTo`
at target `(state.__scrollX, state.__scrollY)` with deadline
`Date.now() + SCROLL_RESTORATION_TIMEOUT_MS`, or — when the resolved
state is missing or lacks finite scroll fields — synchronously calls
`window.scrollTo(0, 0)`. -/

/-- `poppedState || window.history.state`: `poppedState` is `null` or an
object, and a non-null object is always truthy. -/
def resolvedFinishState (poppedState histState : Option JSObject) : Option JSObject :=
  match poppedState with
  | some p => some p
  | none => histState

/-- The visible effect of one `onPageFinish` call: either a deferred
polling attempt (`setTimeout(() => tryToScrollTo(...))`) toward
`(x, y)` with the given absolute deadline, or an immediate synchronous
`window.scrollTo(0, 0)` with no timer involved. -/
inductive FinishAction where
  | scheduleRestore : Int → Int → Int → FinishAction
  | scrollToOrigin : FinishAction
deriving DecidableEq, Repr

/-- The `Number.isFinite(state.__scrollX) && Number.isFinite(state.__scrollY)`
test together with the use of those coordinates: finite coordinates
schedule the deferred restoration, anything else scrolls to origin. -/
def coordsAction (now timeoutMs : Int) : JSValue → JSValue → FinishAction
  | .num x, .num y => .scheduleRestore x y (now + timeoutMs)
  | _, _ => .scrollToOrigin

/-- The branch of `onPageFinish` on the resolved state: a `null` state
also scrolls to origin. -/
def finishActionOf (now timeoutMs : Int) : Option JSObject → FinishAction
  | some s => coordsAction now timeoutMs (getField s "__scrollX") (getField s "__scrollY")
  | none => .scrollToOrigin

/-- `onPageFinish`: returns the new `poppedState` (always cleared) and
the action taken.  `now` is `Date.now()` and `timeoutMs` the resolved
`SCROLL_RESTORATION_TIMEOUT_MS`. -/
def onPageFinish (now timeoutMs : Int) (poppedState histState : Option JSObject) :
    Option JSObject × FinishAction :=
  (none, finishActionOf now timeoutMs (resolvedFinishState poppedState histState))

/-- `onPopState`: store the event's state as `poppedState` when it is
non-null with finite `__scrollX` / `__scrollY`; otherwise leave
`poppedState` untouched. -/
def onPopState (poppedState eventState : Option JSObject) : Option JSObject :=
  match eventState with
  | some s =>
    if (getField s "__scrollX").isFiniteNumber && (getField s "__scrollY").isFiniteNumber
    then some s else poppedState
  | none => poppedState

/-! ## Restoration Scheduler: one polling step (plugin lines 274-298)

`tryToScrollTo` reads the geometry of the moment, and either scrolls or
reschedules itself after `TRY_TO_SCROLL_INTERVAL_MS`.  A `Geometry`
packages the DOM reads of one step. -/

structure ScrollTarget where
  x : Int
  y : Int
  latestTimeToTry : Int
deriving DecidableEq, Repr

/-- The DOM/viewport measurements one `tryToScrollTo` call performs. -/
structure Geometry where
  bodyScrollWidth : Int
  bodyOffsetWidth : Int
  htmlClientWidth : Int
  htmlScrollWidth : Int
  htmlOffsetWidth : Int
  bodyScrollHeight : Int
  bodyOffsetHeight : Int
  htmlClientHeight : Int
  htmlScrollHeight : Int
  htmlOffsetHeight : Int
  innerWidth : Int
  innerHeight : Int
deriving DecidableEq, Repr

/-- `Math.max(body.scrollWidth, body.offsetWidth, html.clientWidth,
html.scrollWidth, html.offsetWidth)`. -/
def documentWidth (g : Geometry) : Int :=
  max (max (max (max g.bodyScrollWidth g.bodyOffsetWidth) g.htmlClientWidth)
    g.htmlScrollWidth) g.htmlOffsetWidth

/-- `Math.max(body.scrollHeight, body.offsetHeight, html.clientHeight,
html.scrollHeight, html.offsetHeight)`. -/
def documentHeight (g : Geometry) : Int :=
  max (max (max (max g.bodyScrollHeight g.bodyOffsetHeight) g.htmlClientHeight)
    g.htmlScrollHeight) g.htmlOffsetHeight

/-- The geometric reachability test of `tryToScrollTo`:
`documentWidth + scrollBarWidth - window.innerWidth >= target.x &&
documentHeight + scrollBarWidth - window.innerHeight >= target.y`. -/
def canScrollNow (g : Geometry) (scrollBarWidth : Int) (t : ScrollTarget) : Bool :=
  decide (t.x ≤ documentWidth g + scrollBarWidth - g.innerWidth) &&
  decide (t.y ≤ documentHeight g + scrollBarWidth - g.innerHeight)

/-- The full guard of one polling step: geometric reachability in both
axes, or `Date.now() > scrollTarget.latestTimeToTry`. -/
def stepScrolls (g : Geometry) (scrollBarWidth now : Int) (t : ScrollTarget) : Bool :=
  canScrollNow g scrollBarWidth t || decide (t.latestTimeToTry < now)

/-- What one polling step does. -/
inductive StepOutcome where
  | scroll : Int → Int → StepOutcome
  | reschedule : StepOutcome
deriving DecidableEq, Repr

/-- One `tryToScrollTo` step in isolation: `window.scrollTo(target.x,
target.y)` when the guard holds, otherwise reschedule one further step
via `setTimeout(..., TRY_TO_SCROLL_INTERVAL_MS)`. -/
def pollStep (g : Geometry) (scrollBarWidth now : Int) (t : ScrollTarget) : StepOutcome :=
  if stepScrolls g scrollBarWidth now t then .scroll t.x t.y else .reschedule

/-! ### The polling loop of one attempt

Step `n` of an attempt sees geometry `envG n` at clock `envT n`.  The
loop stops at the first step whose guard holds; `runAttempt` collects
the `window.scrollTo` calls made (with enough fuel, the singleton scroll
to the target), `firstScrollStep` gives the index of the step that
scrolled. -/

def runAttempt (envG : Nat → Geometry) (envT : Nat → Int) (scrollBarWidth : Int)
    (t : ScrollTarget) : Nat → Nat → List (Int × Int)
  | _, 0 => []
  | n, fuel + 1 =>
    if stepScrolls (envG n) scrollBarWidth (envT n) t then [(t.x, t.y)]
    else runAttempt envG envT scrollBarWidth t (n + 1) fuel

def firstScrollStep (envG : Nat → Geometry) (envT : Nat → Int) (scrollBarWidth : Int)
    (t : ScrollTarget) : Nat → Nat → Option Nat
  | _, 0 => none
  | n, fuel + 1 =>
    if stepScrolls (envG n) scrollBarWidth (envT n) t then some n
    else firstScrollStep envG envT scrollBarWidth t (n + 1) fuel

/-! ### The Scheduler as a timer system (plugin lines 268-298)

For the single-active-attempt property we model the timer machinery
explicitly.  `timeoutHandle` is the one module-level variable holding
the id returned by the last `setTimeout` in `tryToScrollTo`; `pending`
is the set of armed `tryToScrollTo` poll timers of the JavaScript
runtime, tagged with fresh ids.  Every `tryToScrollTo` call starts with
`clearTimeout(timeoutHandle)`. -/

structure TimerSys where
  nextId : Nat
  pending : List (Nat × ScrollTarget)
  timeoutHandle : Option Nat
deriving DecidableEq, Repr

def initTimerSys : TimerSys := { nextId := 1, pending := [], timeoutHandle := none }

/-- `clearTimeout(timeoutHandle)`: disarm the pending timer whose id is
stored in the handle (a no-op when the handle is unset or the timer
already fired). -/
def clearStoredTimeout (s : TimerSys) : TimerSys :=
  { s with pending := s.pending.filter fun p => some p.1 ≠ s.timeoutHandle }

/-- One execution of `tryToScrollTo scrollTarget` in the ambient
geometry/clock `(g, scrollBarWidth, now)`: clear the stored timer, then
either scroll (returning the `window.scrollTo` calls made) or arm a
fresh poll timer and store its id in `timeoutHandle`. -/
def tryToScrollTo (g : Geometry) (scrollBarWidth now : Int) (t : ScrollTarget)
    (s : TimerSys) : TimerSys × List (Int × Int) :=
  let s1 := clearStoredTimeout s
  if stepScrolls g scrollBarWidth now t then (s1, [(t.x, t.y)])
  else
    ({ nextId := s1.nextId + 1,
       pending := s1.pending ++ [(s1.nextId, t)],
       timeoutHandle := some s1.nextId }, [])

/-- An event of the Scheduler's event loop: `begin` is the deferred
`tryToScrollTo` call scheduled by `onPageFinish` (the start of a fresh
restoration attempt); `fire` is the JavaScript runtime firing the armed
poll timer with the given id (running the `tryToScrollTo` it holds). -/
inductive SchedEv where
  | begin : Geometry → Int → Int → ScrollTarget → SchedEv
  | fire : Geometry → Int → Int → Nat → SchedEv
deriving DecidableEq, Repr

def SchedEv.isFire : SchedEv → Bool
  | .fire _ _ _ _ => true
  | _ => false

/-- Look up an armed timer by id. -/
def findTimer : List (Nat × ScrollTarget) → Nat → Option ScrollTarget
  | [], _ => none
  | (i, t) :: rest, id => if id = i then some t else findTimer rest id

/-- Process one event.  A `fire` of an id that is no longer armed (it
was cleared) does nothing; a live timer is consumed and its
`tryToScrollTo` callback runs. -/
def stepEv (s : TimerSys) : SchedEv → TimerSys × List (Int × Int)
  | .begin g sbw now t => tryToScrollTo g sbw now t s
  | .fire g sbw now id =>
    match findTimer s.pending id with
    | none => (s, [])
    | some t =>
      tryToScrollTo g sbw now t
        { s with pending := s.pending.filter fun p => p.1 ≠ id }

/-- Process a list of events, collecting all `window.scrollTo` calls. -/
def runEvs (s : TimerSys) : List SchedEv → TimerSys × List (Int × Int)
  | [] => (s, [])
  | e :: rest =>
    let r := stepEv s e
    let r2 := runEvs r.1 rest
    (r2.1, r.2 ++ r2.2)

/-- The structural invariant of the timer system: at most one poll
timer is armed, and an armed timer's id is the one stored in
`timeoutHandle`. -/
def TimerInv (s : TimerSys) : Prop :=
  s.pending.length ≤ 1 ∧ ∀ p ∈ s.pending, some p.1 = s.timeoutHandle

/-! ### Concrete scenarios used by the spec -/

/-- A page whose viewport is 800×700 with no scrollbar and whose
reachable height (`documentHeight - innerHeight`) is `h`; the reachable
width is `0`. -/
def growGeom (h : Int) : Geometry :=
  { bodyScrollWidth := 800, bodyOffsetWidth := 800, htmlClientWidth := 800,
    htmlScrollWidth := 800, htmlOffsetWidth := 800,
    bodyScrollHeight := h + 700, bodyOffsetHeight := h + 700, htmlClientHeight := 700,
    htmlScrollHeight := h + 700, htmlOffsetHeight := h + 700,
    innerWidth := 800, innerHeight := 700 }

/-- P4 scenario: reachable height grows 500, 700, 900, 1100, 1200 across
successive polls. -/
def growEnvG : Nat → Geometry
  | 0 => growGeom 500
  | 1 => growGeom 700
  | 2 => growGeom 900
  | 3 => growGeom 1100
  | _ + 4 => growGeom 1200

/-- Polls every 50 ms starting at time 0. -/
def pollClock : Nat → Int := fun n => 50 * n

/-- P4 target: `(0, 1000)` with a 3000 ms budget starting at time 0. -/
def growTarget : ScrollTarget := { x := 0, y := 1000, latestTimeToTry := 3000 }

/-- P5 scenario: the reachable height never exceeds 800. -/
def timeoutEnvG : Nat → Geometry := fun _ => growGeom 800

/-- P5 target: `(0, 5000)` with `restorationTimeoutMs = 300` starting at
time 0. -/
def timeoutTarget : ScrollTarget := { x := 0, y := 5000, latestTimeToTry := 300 }

/-- P8 scenario: the first attempt's target. -/
def demoT1 : ScrollTarget := { x := 0, y := 5000, latestTimeToTry := 3000 }

/-- P8 scenario: the second attempt's target. -/
def demoT2 : ScrollTarget := { x := 0, y := 4000, latestTimeToTry := 3100 }

/-! ## Object-model lemmas -/

theorem getField_setField_self (o : JSObject) (k : String) (v : JSValue) :
    getField (setField o k v) k = v := by
  simp [setField, getField]

theorem getField_filter_ne (o : JSObject) (k key : String) (h : key ≠ k) :
    getField (o.filter fun p => p.1 ≠ k) key = getField o key := by
  induction o with
  | nil => rfl
  | cons p rest ih =>
    cases p with
    | mk k' v' =>
      by_cases hk : k' = k
      · subst hk
        rw [List.filter_cons_of_neg (by simp)]
        simp only [getField, if_neg h]
        exact ih
      · rw [List.filter_cons_of_pos (by simp [hk])]
        by_cases hkey : key = k'
        · simp only [getField, if_pos hkey]
        · simp only [getField, if_neg hkey]
          exact ih

theorem getField_setField_ne (o : JSObject) (k key : String) (v : JSValue)
    (h : key ≠ k) : getField (setField o k v) key = getField o key := by
  simp only [setField, getField, if_neg h]
  exact getField_filter_ne o k key h

theorem getField_stampObj_other (base : Option JSObject) (vx vy : JSValue)
    (k : String) (hx : k ≠ "__scrollX") (hy : k ≠ "__scrollY") :
    getField (stampObj base vx vy) k = getFieldOpt base k := by
  unfold stampObj
  rw [getField_setField_ne _ _ _ _ hy, getField_setField_ne _ _ _ _ hx]
  cases base with
  | none => rfl
  | some o => rfl

theorem getField_stampObj_scrollX (base : Option JSObject) (vx vy : JSValue) :
    getField (stampObj base vx vy) "__scrollX" = vx := by
  unfold stampObj
  rw [getField_setField_ne _ _ _ _ (by decide), getField_setField_self]

theorem getField_stampObj_scrollY (base : Option JSObject) (vx vy : JSValue) :
    getField (stampObj base vx vy) "__scrollY" = vy :=
  getField_setField_self _ _ _

/-! ## Claims about the Navigation Interceptor -/

/-- C3.  For every input state `S` (mounted or not mounted), the state
passed to the underlying `replaceState` primitive by the wrapped
overwrite-current-entry operation agrees with `S` on every field other
than `__scrollX` and `__scrollY`: stamping is a non-destructive merge
preserving all other fields of the original state unchanged. -/
theorem replaceState_nondestructive_merge (isMounted : Bool) (liveX liveY : Int)
    (histState stateArg : Option JSObject) (s : JSObject)
    (h : stampedState isMounted liveX liveY histState stateArg = .ok s)
    (k : String) (hx : k ≠ "__scrollX") (hy : k ≠ "__scrollY") :
    getField s k = getFieldOpt stateArg k := by
  unfold stampedState at h
  cases isMounted with
  | true =>
    rw [if_pos rfl] at h
    injection h with h
    rw [← h]
    exact getField_stampObj_other _ _ _ _ hx hy
  | false =>
    rw [if_neg (by simp)] at h
    cases histState with
    | none => cases h
    | some hs =>
      injection h with h
      rw [← h]
      exact getField_stampObj_other _ _ _ _ hx hy

/-- Witness for C3 at a concrete input: a mounted-state stamp of
`{foo: 1}` preserves the field `foo`. -/
theorem replaceState_nondestructive_merge_witness :
    getField (stampObj (some [("foo", JSValue.num 1)]) (JSValue.num 5) (JSValue.num 6)) "foo" =
      getFieldOpt (some [("foo", JSValue.num 1)]) "foo" :=
  replaceState_nondestructive_merge true 5 6 none (some [("foo", JSValue.num 1)]) _
    rfl "foo" (by decide) (by decide)

/-- C4.  If `MountedFlag` is false, the wrapped overwrite-current-entry
operation stamps the new state with the `__scrollX`/`__scrollY` values
already stored in the existing current history entry — not with the
live viewport position (`liveX`, `liveY` are arbitrary and absent from
the conclusion). -/
theorem replaceState_premount_uses_stored (liveX liveY : Int) (hs : JSObject)
    (stateArg : Option JSObject) (s : JSObject)
    (h : stampedState false liveX liveY (some hs) stateArg = .ok s) :
    getField s "__scrollX" = getField hs "__scrollX" ∧
    getField s "__scrollY" = getField hs "__scrollY" := by
  unfold stampedState at h
  rw [if_neg (by simp)] at h
  injection h with h
  rw [← h]
  exact ⟨getField_stampObj_scrollX _ _ _, getField_stampObj_scrollY _ _ _⟩

/-- Witness for C4: with stored entry `{__scrollX: 120, __scrollY: 340}`,
live position `(0, 0)` and a fresh empty state argument, the delegated
state carries `__scrollX = 120`, `__scrollY = 340`. -/
theorem replaceState_premount_uses_stored_witness :
    getField (stampObj (some []) (JSValue.num 120) (JSValue.num 340)) "__scrollX" = JSValue.num 120 ∧
    getField (stampObj (some []) (JSValue.num 120) (JSValue.num 340)) "__scrollY" = JSValue.num 340 := by
  have h := replaceState_premount_uses_stored 0 0
    [("__scrollX", JSValue.num 120), ("__scrollY", JSValue.num 340)] (some []) _ rfl
  exact ⟨h.1.trans (by decide), h.2.trans (by decide)⟩

/-! ## Claim about configuration resolution -/

/-- C10.  Configuration values are resolved with a falsy fallback: an
explicit `0` for either option, or an absent `scrollRestoration` config
object, yields the defaults 3000 ms / 50 ms; the resolved values are
never `0`. -/
theorem config_falsy_fallback :
    (∀ c : RuntimeScrollConfig, c.scrollRestorationTimeoutMs = some 0 →
      SCROLL_RESTORATION_TIMEOUT_MS (some c) = 3000) ∧
    (∀ c : RuntimeScrollConfig, c.tryToScrollIntervalMs = some 0 →
      TRY_TO_SCROLL_INTERVAL_MS (some c) = 50) ∧
    SCROLL_RESTORATION_TIMEOUT_MS none = 3000 ∧
    TRY_TO_SCROLL_INTERVAL_MS none = 50 ∧
    (∀ cfg : Option RuntimeScrollConfig,
      SCROLL_RESTORATION_TIMEOUT_MS cfg ≠ 0 ∧ TRY_TO_SCROLL_INTERVAL_MS cfg ≠ 0) := by
  have hne : ∀ (v : Option Int) (d : Int), d ≠ 0 → jsNumOr v d ≠ 0 := by
    intro v d hd
    unfold jsNumOr
    cases v with
    | none => exact hd
    | some n =>
      by_cases h : n = 0
      · simp [h]
        exact hd
      · simp [h]
  refine ⟨?_, ?_, rfl, rfl, ?_⟩
  · intro c hc
    simp [SCROLL_RESTORATION_TIMEOUT_MS, hc, jsNumOr]
  · intro c hc
    simp [TRY_TO_SCROLL_INTERVAL_MS, hc, jsNumOr]
  · intro cfg
    exact ⟨hne _ _ (by decide), hne _ _ (by decide)⟩

/-- Witness for C10: both options explicitly `0` resolve to the
defaults, as does an absent config object. -/
theorem config_falsy_fallback_witness :
    SCROLL_RESTORATION_TIMEOUT_MS (some ⟨some 0, some 0, none⟩) = 3000 ∧
    TRY_TO_SCROLL_INTERVAL_MS (some ⟨some 0, some 0, none⟩) = 50 ∧
    SCROLL_RESTORATION_TIMEOUT_MS none = 3000 ∧
    TRY_TO_SCROLL_INTERVAL_MS none = 50 :=
  ⟨config_falsy_fallback.1 ⟨some 0, some 0, none⟩ rfl,
   config_falsy_fallback.2.1 ⟨some 0, some 0, none⟩ rfl,
   config_falsy_fallback.2.2.1,
   config_falsy_fallback.2.2.2.1⟩

/-! ## Claims about the Lifecycle Coordinator -/

/-- C5.  On every navigation-finished trigger, a set `PoppedState` takes
precedence over the current history entry as the restoration target and
is cleared: the scheduled target comes from the popped state's
coordinates, the history entry does not appear in the result at all,
and the returned `poppedState` is `null`. -/
theorem onPageFinish_popped_precedence (now timeoutMs : Int) (p : JSObject)
    (histState : Option JSObject) (x y : Int)
    (hx : getField p "__scrollX" = JSValue.num x)
    (hy : getField p "__scrollY" = JSValue.num y) :
    onPageFinish now timeoutMs (some p) histState =
      (none, FinishAction.scheduleRestore x y (now + timeoutMs)) := by
  simp only [onPageFinish, resolvedFinishState, finishActionOf, hx, hy, coordsAction]

/-- Witness for C5: popped state `{__scrollX: 10, __scrollY: 20}` wins
over current entry `{__scrollX: 99, __scrollY: 99}`; the restoration
targets `(10, 20)` and `poppedState` is cleared. -/
theorem onPageFinish_popped_precedence_witness :
    onPageFinish 0 3000 (some [("__scrollX", JSValue.num 10), ("__scrollY", JSValue.num 20)])
      (some [("__scrollX", JSValue.num 99), ("__scrollY", JSValue.num 99)]) =
      (none, FinishAction.scheduleRestore 10 20 (0 + 3000)) :=
  onPageFinish_popped_precedence 0 3000 _ _ 10 20 rfl rfl

/-- C6.  On every navigation-finished trigger where the resolved state
is absent or lacks finite `__scrollX` and `__scrollY` values, the
handler starts no polling attempt and scrolls immediately
(synchronously, no timer) to the origin `(0, 0)`. -/
theorem onPageFinish_invalid_scrolls_origin (now timeoutMs : Int)
    (poppedState histState : Option JSObject)
    (h : ∀ s : JSObject, resolvedFinishState poppedState histState = some s →
      ((getField s "__scrollX").isFiniteNumber &&
       (getField s "__scrollY").isFiniteNumber) = false) :
    onPageFinish now timeoutMs poppedState histState =
      (none, FinishAction.scrollToOrigin) := by
  unfold onPageFinish
  cases hres : resolvedFinishState poppedState histState with
  | none => rfl
  | some s =>
    have hb := h s hres
    simp only [finishActionOf]
    cases hX : getField s "__scrollX" with
    | num xv =>
      cases hY : getField s "__scrollY" with
      | num yv =>
        rw [hX, hY] at hb
        simp [JSValue.isFiniteNumber] at hb
      | undef => rfl
      | null => rfl
      | nonFiniteNum => rfl
      | str sv => rfl
      | bool bv => rfl
    | undef => rfl
    | null => rfl
    | nonFiniteNum => rfl
    | str sv => rfl
    | bool bv => rfl

/-- Witness for C6: a history entry with no scroll fields (and no popped
state) produces an immediate scroll to the origin. -/
theorem onPageFinish_invalid_scrolls_origin_witness :
    onPageFinish 7 3000 none (some []) = (none, FinishAction.scrollToOrigin) :=
  onPageFinish_invalid_scrolls_origin 7 3000 none (some [])
    (by
      intro s hs
      simp [resolvedFinishState] at hs
      subst hs
      decide)

/-! ## Claims about `pushState` and the failure surface -/

/-- C9.  Every invocation of the wrapped create-new-entry operation
first synchronously invokes the wrapped overwrite-current-entry
operation on the existing current entry's state (so the outgoing entry
is stamped before the new entry is committed), then delegates to the
underlying `pushState` with its original argument unchanged — the new
entry receives no scroll stamp from this call. -/
theorem pushState_stamps_then_delegates (isMounted : Bool) (liveX liveY : Int)
    (histState stateArg : Option JSObject) (s : JSObject)
    (hs : stampedState isMounted liveX liveY histState histState = .ok s) :
    pushStateTrace isMounted liveX liveY histState stateArg =
      .ok [HistOp.origReplaceCall s, HistOp.origPushCall stateArg] := by
  unfold pushStateTrace replaceStateTrace
  rw [hs]
  rfl

/-- Witness for C9: a mounted push with live position `(3, 4)` issues
exactly the stamped overwrite of the current entry followed by the
untouched push. -/
theorem pushState_stamps_then_delegates_witness :
    pushStateTrace true 3 4 (some []) (some [("k", JSValue.str "v")]) =
      .ok [HistOp.origReplaceCall (stampObj (some []) (JSValue.num 3) (JSValue.num 4)),
           HistOp.origPushCall (some [("k", JSValue.str "v")])] :=
  pushState_stamps_then_delegates true 3 4 (some []) (some [("k", JSValue.str "v")]) _ rfl

/-- C8 is false as stated: it is not the case that the wrapper only
throws when the underlying primitive throws.  With `MountedFlag` unset
and a `null` current history entry, the wrapped `replaceState` itself
throws a `TypeError` (from `window.history.state.__scrollX`) even
though the underlying primitive never throws. -/
theorem wrapper_failure_surface_counterexample :
    ¬ (∀ (isMounted : Bool) (liveX liveY : Int) (histState stateArg : Option JSObject)
        (origReplace : JSObject → Except String Unit),
        (∀ s, isThrown (origReplace s) = false) →
        isThrown (runWrappedReplaceState origReplace isMounted liveX liveY
          histState stateArg) = false) := by
  intro h
  exact absurd (h false 0 0 none none (fun _ => .ok ()) (fun _ => rfl)) (by decide)

/-- C8 amended: whenever `MountedFlag` is set or the current history
entry is non-null, the wrapped `replaceState` and `pushState` add no
failure surface — each delegates with the stamped state, returning
exactly what the underlying primitives return, so an exception occurs
iff an underlying primitive throws and is propagated unchanged.  (When
`MountedFlag` is false and the current entry is `null`, the wrapper
itself throws a `TypeError`; see the counterexample.) -/
theorem wrapper_failure_surface_amended (origReplace : JSObject → Except String Unit)
    (origPush : Option JSObject → Except String Unit)
    (isMounted : Bool) (liveX liveY : Int) (histState stateArg : Option JSObject)
    (h : isMounted = true ∨ histState.isSome = true) :
    (∃ s : JSObject, stampedState isMounted liveX liveY histState stateArg = .ok s ∧
      runWrappedReplaceState origReplace isMounted liveX liveY histState stateArg =
        origReplace s) ∧
    (∃ s : JSObject, stampedState isMounted liveX liveY histState histState = .ok s ∧
      runWrappedPushState origReplace origPush isMounted liveX liveY histState stateArg =
        (match origReplace s with
         | .error e => .error e
         | .ok _ => origPush stateArg)) := by
  have hok : ∀ arg : Option JSObject, ∃ s : JSObject,
      stampedState isMounted liveX liveY histState arg = .ok s := by
    intro arg
    cases isMounted with
    | true => exact ⟨_, rfl⟩
    | false =>
      cases histState with
      | none =>
        rcases h with h | h
        · cases h
        · cases h
      | some hs => exact ⟨_, rfl⟩
  constructor
  · obtain ⟨s, hsok⟩ := hok stateArg
    refine ⟨s, hsok, ?_⟩
    unfold runWrappedReplaceState
    rw [hsok]
  · obtain ⟨s, hsok⟩ := hok histState
    refine ⟨s, hsok, ?_⟩
    unfold runWrappedPushState runWrappedReplaceState
    rw [hsok]

/-- Witness for the amended C8: mounted wrappers with delegates that do
not throw produce no exception. -/
theorem wrapper_failure_surface_amended_witness :
    (∃ s : JSObject, stampedState true 1 2 none (some []) = Except.ok s ∧
      runWrappedReplaceState (fun _ => Except.ok ()) true 1 2 none (some []) =
        Except.ok ()) ∧
    (∃ s : JSObject, stampedState true 1 2 none none = Except.ok s ∧
      runWrappedPushState (fun _ => Except.ok ()) (fun _ => Except.ok ()) true 1 2
        none (some []) = Except.ok ()) :=
  wrapper_failure_surface_amended (fun _ => Except.ok ()) (fun _ => Except.ok ())
    true 1 2 none (some []) (Or.inl rfl)

/-! ## Claims about the polling Scheduler -/

theorem stepScrolls_iff (g : Geometry) (sbw now : Int) (t : ScrollTarget) :
    stepScrolls g sbw now t = true ↔
      ((documentWidth g + sbw - g.innerWidth ≥ t.x ∧
        documentHeight g + sbw - g.innerHeight ≥ t.y) ∨ now > t.latestTimeToTry) := by
  simp [stepScrolls, canScrollNow, ge_iff_le, gt_iff_lt]

/-- C1.  Each polling step performs `scrollTo(x, y)` iff
`documentWidth + scrollBarWidth - innerWidth ≥ x` and
`documentHeight + scrollBarWidth - innerHeight ≥ y`, or
`now > deadline`; otherwise it performs no scroll and reschedules one
further step.  In the P4 scenario (target `(0, 1000)`, reachable height
growing 500 → 1200 across 50 ms polls), exactly one scroll call is
made, at the first poll where the reachable height is ≥ 1000, and
before the timeout. -/
theorem pollStep_guard_and_growth_scenario :
    (∀ (g : Geometry) (sbw now : Int) (t : ScrollTarget),
      (pollStep g sbw now t = StepOutcome.scroll t.x t.y ↔
        ((documentWidth g + sbw - g.innerWidth ≥ t.x ∧
          documentHeight g + sbw - g.innerHeight ≥ t.y) ∨ now > t.latestTimeToTry)) ∧
      (pollStep g sbw now t = StepOutcome.reschedule ↔
        ¬ ((documentWidth g + sbw - g.innerWidth ≥ t.x ∧
          documentHeight g + sbw - g.innerHeight ≥ t.y) ∨ now > t.latestTimeToTry))) ∧
    firstScrollStep growEnvG pollClock 0 growTarget 0 10 = some 3 ∧
    runAttempt growEnvG pollClock 0 growTarget 0 10 = [(0, 1000)] ∧
    documentHeight (growEnvG 3) + 0 - (growEnvG 3).innerHeight ≥ 1000 ∧
    documentHeight (growEnvG 2) + 0 - (growEnvG 2).innerHeight < 1000 ∧
    pollClock 3 ≤ growTarget.latestTimeToTry := by
  refine ⟨?_, by decide, by decide, by decide, by decide, by decide⟩
  intro g sbw now t
  constructor
  · constructor
    · intro hp
      unfold pollStep at hp
      by_cases hg : stepScrolls g sbw now t = true
      · exact (stepScrolls_iff g sbw now t).mp hg
      · rw [if_neg hg] at hp
        cases hp
    · intro hc
      unfold pollStep
      rw [if_pos ((stepScrolls_iff g sbw now t).mpr hc)]
  · constructor
    · intro hp hc
      unfold pollStep at hp
      rw [if_pos ((stepScrolls_iff g sbw now t).mpr hc)] at hp
      cases hp
    · intro hc
      unfold pollStep
      rw [if_neg (fun hg => hc ((stepScrolls_iff g sbw now t).mp hg))]

theorem runAttempt_of_first (envG : Nat → Geometry) (envT : Nat → Int)
    (sbw : Int) (t : ScrollTarget) :
    ∀ (fuel n k : Nat), k < fuel →
    stepScrolls (envG (n + k)) sbw (envT (n + k)) t = true →
    runAttempt envG envT sbw t n fuel = [(t.x, t.y)] := by
  intro fuel
  induction fuel with
  | zero =>
    intro n k hk
    omega
  | succ m ih =>
    intro n k hk hs
    unfold runAttempt
    by_cases h0 : stepScrolls (envG n) sbw (envT n) t = true
    · rw [if_pos h0]
    · rw [if_neg h0]
      cases k with
      | zero =>
        rw [Nat.add_zero] at hs
        exact absurd hs h0
      | succ k' =>
        have hs' : stepScrolls (envG (n + 1 + k')) sbw (envT (n + 1 + k')) t = true := by
          have harith : n + 1 + k' = n + (k' + 1) := by omega
          rw [harith]
          exact hs
        exact ih (n + 1) k' (by omega) hs'

theorem firstScrollStep_of_least (envG : Nat → Geometry) (envT : Nat → Int)
    (sbw : Int) (t : ScrollTarget) :
    ∀ (fuel m n : Nat), m ≤ n → n < m + fuel →
    stepScrolls (envG n) sbw (envT n) t = true →
    (∀ j, m ≤ j → j < n → stepScrolls (envG j) sbw (envT j) t = false) →
    firstScrollStep envG envT sbw t m fuel = some n := by
  intro fuel
  induction fuel with
  | zero =>
    intro m n h1 h2
    omega
  | succ f ih =>
    intro m n h1 h2 hs hmin
    unfold firstScrollStep
    by_cases hm : m = n
    · subst hm
      rw [if_pos hs]
    · have hlt : m < n := lt_of_le_of_ne h1 hm
      have hf : stepScrolls (envG m) sbw (envT m) t = false := hmin m le_rfl hlt
      rw [if_neg (by simp [hf])]
      exact ih (m + 1) n (by omega) (by omega) hs fun j hj1 hj2 => hmin j (by omega) hj2

/-- C2.  Every restoration attempt terminates, as long as the clock
strictly advances between polls (`setTimeout` with a positive interval):
the loop reaches a first scrolling step `n` and issues exactly one
`window.scrollTo` call, to the exact target coordinates.  Moreover, when
the coordinates never become reachable, if consecutive polls are at most
`gap` apart and the attempt begins no later than its deadline, the
single (forced) scroll happens at a step whose time is at most
`deadline + gap` — no later than approximately the deadline. -/
theorem attempt_terminates (envG : Nat → Geometry) (envT : Nat → Int)
    (sbw gap : Int) (t : ScrollTarget)
    (hlb : ∀ n : Nat, envT n + 1 ≤ envT (n + 1)) :
    (∃ n : Nat,
      firstScrollStep envG envT sbw t 0 (n + 1) = some n ∧
      runAttempt envG envT sbw t 0 (n + 1) = [(t.x, t.y)]) ∧
    ((∀ m : Nat, canScrollNow (envG m) sbw t = false) →
     (∀ m : Nat, envT (m + 1) ≤ envT m + gap) →
     envT 0 ≤ t.latestTimeToTry →
     ∃ n : Nat,
       firstScrollStep envG envT sbw t 0 (n + 1) = some n ∧
       runAttempt envG envT sbw t 0 (n + 1) = [(t.x, t.y)] ∧
       envT n ≤ t.latestTimeToTry + gap) := by
  classical
  have hmono : ∀ m : Nat, envT 0 + m ≤ envT m := by
    intro m
    induction m with
    | zero => simp
    | succ k ih =>
      have := hlb k
      push_cast
      push_cast at ih
      omega
  have hex : ∃ m : Nat, stepScrolls (envG m) sbw (envT m) t = true := by
    refine ⟨(t.latestTimeToTry - envT 0 + 1).toNat, ?_⟩
    have h1 := hmono (t.latestTimeToTry - envT 0 + 1).toNat
    have h2 : (t.latestTimeToTry - envT 0 + 1 : Int) ≤
        ((t.latestTimeToTry - envT 0 + 1).toNat : Int) := Int.self_le_toNat _
    have hlate : t.latestTimeToTry < envT ((t.latestTimeToTry - envT 0 + 1).toNat) := by
      omega
    unfold stepScrolls
    simp [hlate]
  have hn := Nat.find_spec hex
  have hmin : ∀ j, j < Nat.find hex → stepScrolls (envG j) sbw (envT j) t = false := by
    intro j hj
    have := Nat.find_min hex hj
    simpa using this
  have hfirst : firstScrollStep envG envT sbw t 0 (Nat.find hex + 1) = some (Nat.find hex) :=
    firstScrollStep_of_least envG envT sbw t (Nat.find hex + 1) 0 (Nat.find hex)
      (Nat.zero_le _) (by omega) hn fun j _ hj2 => hmin j hj2
  have hrun : runAttempt envG envT sbw t 0 (Nat.find hex + 1) = [(t.x, t.y)] :=
    runAttempt_of_first envG envT sbw t (Nat.find hex + 1) 0 (Nat.find hex)
      (by omega) (by rw [Nat.zero_add]; exact hn)
  refine ⟨⟨Nat.find hex, hfirst, hrun⟩, ?_⟩
  intro hunreach hub h0
  refine ⟨Nat.find hex, hfirst, hrun, ?_⟩
  have hstep_late : ∀ m : Nat, stepScrolls (envG m) sbw (envT m) t = true →
      t.latestTimeToTry < envT m := by
    intro m hm
    unfold stepScrolls at hm
    rw [hunreach m] at hm
    simpa using hm
  by_cases hz : Nat.find hex = 0
  · have := hstep_late 0 (hz ▸ hn)
    omega
  · have hprev : stepScrolls (envG (Nat.find hex - 1)) sbw (envT (Nat.find hex - 1)) t = false :=
      hmin (Nat.find hex - 1) (by omega)
    have hnotlate : ¬ t.latestTimeToTry < envT (Nat.find hex - 1) := by
      intro hlate
      have : stepScrolls (envG (Nat.find hex - 1)) sbw (envT (Nat.find hex - 1)) t = true := by
        unfold stepScrolls
        exact (Bool.or_eq_true _ _).mpr (Or.inr (decide_eq_true hlate))
      rw [this] at hprev
      cases hprev
    have hgap := hub (Nat.find hex - 1)
    have harith : Nat.find hex - 1 + 1 = Nat.find hex := by omega
    rw [harith] at hgap
    omega

/-- Witness for C2, the P5 scenario: target `(0, 5000)`, reachable
height stuck at 800, timeout 300 ms, 50 ms polls — the attempt still
terminates with exactly one scroll call to `(0, 5000)`, at a poll no
later than 350 ms. -/
theorem attempt_terminates_witness :
    ∃ n : Nat,
      firstScrollStep timeoutEnvG pollClock 0 timeoutTarget 0 (n + 1) = some n ∧
      runAttempt timeoutEnvG pollClock 0 timeoutTarget 0 (n + 1) = [(0, 5000)] ∧
      pollClock n ≤ timeoutTarget.latestTimeToTry + 50 :=
  (attempt_terminates timeoutEnvG pollClock 0 50 timeoutTarget
      (by
        intro n
        simp only [pollClock]
        push_cast
        omega)).2
    (fun m => by
      simp only [timeoutEnvG]
      decide)
    (by
      intro m
      simp only [pollClock]
      push_cast
      omega)
    (by decide)

/-! ## Claim C7: single active attempt -/

theorem clearStoredTimeout_pending_nil (s : TimerSys) (hInv : TimerInv s) :
    (clearStoredTimeout s).pending = [] := by
  rcases hInv with ⟨hlen, hid⟩
  unfold clearStoredTimeout
  simp only
  rw [List.filter_eq_nil]
  intro p hp
  simp [hid p hp]

theorem tryToScrollTo_inv (g : Geometry) (sbw now : Int) (t : ScrollTarget)
    (s : TimerSys) (hInv : TimerInv s) :
    TimerInv (tryToScrollTo g sbw now t s).1 ∧
    (∀ p ∈ (tryToScrollTo g sbw now t s).1.pending, p.2 = t) ∧
    (∀ xy ∈ (tryToScrollTo g sbw now t s).2, xy = (t.x, t.y)) := by
  have hnil := clearStoredTimeout_pending_nil s hInv
  unfold tryToScrollTo
  by_cases hg : stepScrolls g sbw now t = true
  · rw [if_pos hg]
    refine ⟨⟨?_, ?_⟩, ?_, ?_⟩
    · rw [hnil]
      simp
    · intro p hp
      rw [hnil] at hp
      cases hp
    · intro p hp
      rw [hnil] at hp
      cases hp
    · intro xy hxy
      simpa using hxy
  · rw [if_neg hg]
    refine ⟨⟨?_, ?_⟩, ?_, ?_⟩
    · simp [hnil]
    · intro p hp
      simp [hnil] at hp
      simp [hp]
    · intro p hp
      simp [hnil] at hp
      simp [hp]
    · intro xy hxy
      cases hxy

theorem TimerInv_filter (s : TimerSys) (hInv : TimerInv s) (f : Nat × ScrollTarget → Bool) :
    TimerInv { s with pending := s.pending.filter f } := by
  rcases hInv with ⟨hlen, hid⟩
  refine ⟨le_trans (List.length_filter_le _ _) hlen, ?_⟩
  intro p hp
  exact hid p (List.mem_of_mem_filter hp)

theorem findTimer_mem (l : List (Nat × ScrollTarget)) (id : Nat) (t : ScrollTarget)
    (h : findTimer l id = some t) : (id, t) ∈ l := by
  induction l with
  | nil => cases h
  | cons p rest ih =>
    cases p with
    | mk i t' =>
      unfold findTimer at h
      by_cases hid : id = i
      · subst hid
        rw [if_pos rfl] at h
        injection h with h
        subst h
        exact List.mem_cons_self _ _
      · rw [if_neg hid] at h
        exact List.mem_cons_of_mem _ (ih h)

theorem stepEv_inv (s : TimerSys) (e : SchedEv) (hInv : TimerInv s) :
    TimerInv (stepEv s e).1 := by
  cases e with
  | begin g sbw now t => exact (tryToScrollTo_inv g sbw now t s hInv).1
  | fire g sbw now id =>
    simp only [stepEv]
    cases hft : findTimer s.pending id with
    | none => exact hInv
    | some t => exact (tryToScrollTo_inv g sbw now t _ (TimerInv_filter s hInv _)).1

theorem runEvs_inv (evs : List SchedEv) : ∀ s : TimerSys, TimerInv s →
    TimerInv (runEvs s evs).1 := by
  induction evs with
  | nil =>
    intro s hInv
    exact hInv
  | cons e rest ih =>
    intro s hInv
    exact ih (stepEv s e).1 (stepEv_inv s e hInv)

theorem stepEv_fire_preserves (s : TimerSys) (t2 : ScrollTarget) (e : SchedEv)
    (hfire : e.isFire = true) (hInv : TimerInv s) (htgt : ∀ p ∈ s.pending, p.2 = t2) :
    TimerInv (stepEv s e).1 ∧ (∀ p ∈ (stepEv s e).1.pending, p.2 = t2) ∧
    (∀ xy ∈ (stepEv s e).2, xy = (t2.x, t2.y)) := by
  cases e with
  | begin g sbw now t => cases hfire
  | fire g sbw now id =>
    simp only [stepEv]
    cases hft : findTimer s.pending id with
    | none => exact ⟨hInv, htgt, fun xy hxy => by cases hxy⟩
    | some t =>
      have hmem := findTimer_mem s.pending id t hft
      have ht2 : t = t2 := htgt (id, t) hmem
      subst ht2
      have hInv2 := TimerInv_filter s hInv fun p => decide (p.1 ≠ id)
      have h3 := tryToScrollTo_inv g sbw now t
        { s with pending := s.pending.filter fun p => p.1 ≠ id } hInv2
      exact h3

theorem runEvs_fires_only (t2 : ScrollTarget) (evs : List SchedEv) :
    ∀ s : TimerSys,
    (∀ e ∈ evs, e.isFire = true) → TimerInv s → (∀ p ∈ s.pending, p.2 = t2) →
    TimerInv (runEvs s evs).1 ∧ (∀ p ∈ (runEvs s evs).1.pending, p.2 = t2) ∧
    (∀ xy ∈ (runEvs s evs).2, xy = (t2.x, t2.y)) := by
  induction evs with
  | nil =>
    intro s _ hInv htgt
    exact ⟨hInv, htgt, fun xy hxy => absurd hxy (by simp [runEvs])⟩
  | cons e rest ih =>
    intro s hall hInv htgt
    have h1 := stepEv_fire_preserves s t2 e (hall e (by simp)) hInv htgt
    have h2 := ih (stepEv s e).1 (fun e' he' => hall e' (by simp [he'])) h1.1 h1.2.1
    refine ⟨h2.1, h2.2.1, ?_⟩
    intro xy hxy
    simp only [runEvs, List.mem_append] at hxy
    rcases hxy with h | h
    · exact h1.2.2 xy h
    · exact h2.2.2 xy h

/-- C7.  At most one restoration attempt is ever active: from the
initial state, after any event history, at most one poll timer is armed
(and its id is the stored handle).  When a second attempt `begin`s with
target `t2`, its first `tryToScrollTo` clears the previous attempt's
pending poll timer, so every armed timer from then on belongs to `t2`,
and every scroll performed at that `begin` or by any subsequent timer
firing is to `t2`'s coordinates — the first attempt's eventual
(forced or satisfied) scroll never fires. -/
theorem single_active_attempt (evsPre : List SchedEv) (g : Geometry)
    (sbw now : Int) (t2 : ScrollTarget) (evsPost : List SchedEv)
    (hpost : ∀ e ∈ evsPost, e.isFire = true) :
    TimerInv (runEvs initTimerSys evsPre).1 ∧
    (∀ p ∈ (stepEv (runEvs initTimerSys evsPre).1 (SchedEv.begin g sbw now t2)).1.pending,
      p.2 = t2) ∧
    (∀ xy ∈ (stepEv (runEvs initTimerSys evsPre).1 (SchedEv.begin g sbw now t2)).2,
      xy = (t2.x, t2.y)) ∧
    (∀ xy ∈ (runEvs (stepEv (runEvs initTimerSys evsPre).1 (SchedEv.begin g sbw now t2)).1
        evsPost).2, xy = (t2.x, t2.y)) := by
  have hInv0 : TimerInv initTimerSys := by
    constructor
    · simp [initTimerSys]
    · intro p hp
      simp [initTimerSys] at hp
  have hInv1 := runEvs_inv evsPre initTimerSys hInv0
  have hbegin := tryToScrollTo_inv g sbw now t2 (runEvs initTimerSys evsPre).1 hInv1
  have hrest := runEvs_fires_only t2 evsPost
    (stepEv (runEvs initTimerSys evsPre).1 (SchedEv.begin g sbw now t2)).1
    hpost hbegin.1 hbegin.2.1
  exact ⟨hInv1, hbegin.2.1, hbegin.2.2, hrest.2.2⟩

/-- Witness for C7: attempt 1 (target `(0, 5000)`) arms a poll timer;
attempt 2 (target `(0, 4000)`) begins before attempt 1's deadline and
cancels that timer; subsequent timer firings (including attempt 1's
stale id 1) only ever scroll to attempt 2's target. -/
theorem single_active_attempt_witness :
    TimerInv (runEvs initTimerSys [SchedEv.begin (growGeom 800) 0 0 demoT1]).1 ∧
    (∀ p ∈ (stepEv (runEvs initTimerSys [SchedEv.begin (growGeom 800) 0 0 demoT1]).1
        (SchedEv.begin (growGeom 800) 0 50 demoT2)).1.pending, p.2 = demoT2) ∧
    (∀ xy ∈ (stepEv (runEvs initTimerSys [SchedEv.begin (growGeom 800) 0 0 demoT1]).1
        (SchedEv.begin (growGeom 800) 0 50 demoT2)).2, xy = (demoT2.x, demoT2.y)) ∧
    (∀ xy ∈ (runEvs (stepEv (runEvs initTimerSys [SchedEv.begin (growGeom 800) 0 0 demoT1]).1
        (SchedEv.begin (growGeom 800) 0 50 demoT2)).1
        [SchedEv.fire (growGeom 800) 0 3200 1, SchedEv.fire (growGeom 800) 0 3200 2]).2,
      xy = (demoT2.x, demoT2.y)) :=
  single_active_attempt [SchedEv.begin (growGeom 800) 0 0 demoT1] (growGeom 800) 0 50 demoT2
    [SchedEv.fire (growGeom 800) 0 3200 1, SchedEv.fire (growGeom 800) 0 3200 2]
    (by decide)
